import Mathlib

/-!
Verification of the frame-sequence-to-video assembly pipeline of
`blender-multi-channel-export` (file `addon/operators/render.py`,
class `RenderAllOperator`).

The shallow embedding below translates the pure logic of the pipeline:
frame-index parsing (`get_frame_number`), frame discovery and ordering
(`find_frames`), loop-timeline staging (`prepare_frames_for_ffmpeg`),
quality-preset selection and encoder-command construction, the
post-subprocess result handling of `create_video_with_ffmpeg`, and the
two-channel aggregation of `RenderAllOperator.execute`.

File-system and subprocess effects are made explicit: the directory
listing that `glob.glob` would produce, the flags describing what the
external world does (ffmpeg present, subprocess return code, output file
existence), and the writes into the staging directory (modelled as a
list of pairs `(index, source path)`: file `frame_<index:04d><ext>` is a
copy of the source path).  Python's `with tempfile.TemporaryDirectory()`
guarantees removal of the directory on every exit of the block,
including exceptions; the embedding records the directory state at
return in the field `tempDirPresentAfter`.
-/

namespace RenderRoute

/-- Model of `os.path.basename`: the part of the path after the last `/`
(the suffix of characters not containing a separator). -/
def basename (s : String) : String :=
  String.mk ((s.data.reverse.takeWhile (fun c => c ≠ '/')).reverse)

/-- Model of `str.lower()` on ASCII strings (extensions such as `.EXR`). -/
def lowerStr (s : String) : String :=
  String.mk (s.data.map Char.toLower)

/-- Maximal run of decimal digits at the head of the character list,
paired with the remainder (the greedy `\d+` of the regex). -/
def takeDigits : List Char → List Char × List Char
  | [] => ([], [])
  | c :: cs =>
      if c.isDigit then
        let p := takeDigits cs
        (c :: p.1, p.2)
      else
        ([], c :: cs)

/-- Decimal value of a digit run, as `int(...)` parses it. -/
def digitsToNat (ds : List Char) : Nat :=
  ds.foldl (fun acc c => acc * 10 + (c.toNat - '0'.toNat)) 0

/-- Model of `re.search(r'_(\d+)\.', s)`: the LEFTMOST position at which an
underscore is followed by a nonempty digit run that is immediately
followed by a dot; returns the numeric value of the digit group.
(`re.search` scans left to right; `\d+` is greedy and, because the next
regex character is a literal dot, the group is exactly the maximal digit
run, which must be followed by `.` for the position to match.) -/
def searchUnderscoreDigitsDot : List Char → Option Nat
  | [] => none
  | c :: cs =>
      if c = '_' then
        let p := takeDigits cs
        if p.1 ≠ [] ∧ p.2.head? = some '.' then
          some (digitsToNat p.1)
        else
          searchUnderscoreDigitsDot cs
      else
        searchUnderscoreDigitsDot cs

/-- Definition `get_frame_number` from `RenderAllOperator.find_frames`:
index parsed from the basename by `re.search(r'_(\d+)\.', basename)`,
defaulting to `0` when there is no match. -/
def get_frame_number (filepath : String) : Nat :=
  match searchUnderscoreDigitsDot (basename filepath).data with
  | some n => n
  | none => 0

/-- Stated by the spec (claim C3): the `_(\d+)\.` occurrence found from
the RIGHT of the name, i.e. the last run of digits enclosed between an
underscore and a dot.  This definition follows the claim's words; it is
compared against the source's `get_frame_number` above. -/
def rightmostUnderscoreDigitsDot : List Char → Option Nat
  | [] => none
  | c :: cs =>
      match rightmostUnderscoreDigitsDot cs with
      | some n => some n
      | none =>
          if c = '_' then
            let p := takeDigits cs
            if p.1 ≠ [] ∧ p.2.head? = some '.' then
              some (digitsToNat p.1)
            else
              none
          else
            none

/-- Index the spec's words assign to a filename (claim C3): value of the
rightmost `_(\d+)\.` occurrence in the basename, else `0`. -/
def specFrameNumberFromRight (filepath : String) : Nat :=
  match rightmostUnderscoreDigitsDot (basename filepath).data with
  | some n => n
  | none => 0

/-- Extension including the dot, from the last dot of `cs` onward
(`none` when `cs` has no dot). -/
def afterLastDot : List Char → Option (List Char)
  | [] => none
  | c :: cs =>
      match afterLastDot cs with
      | some e => some e
      | none => if c = '.' then some (c :: cs) else none

/-- Model of `os.path.splitext(s)[1]`: the extension of the basename, from its
last dot, where a leading run of dots does not begin an extension
(`.bashrc` has no extension). -/
def splitext_ext (s : String) : String :=
  let bn := (basename s).data
  match afterLastDot (bn.dropWhile (fun c => c = '.')) with
  | some e => String.mk e
  | none => ""

/-- Stable insertion by parsed frame number: the new element goes in
front of the first element whose key is not smaller.  `list.sort(key=
get_frame_number)` in Python is a stable sort; a stable sort's output is
uniquely determined by the key order and the input order of ties, so any
stable sorting algorithm is an extensionally faithful model of it. -/
def insertByFrameNumber (x : String) : List String → List String
  | [] => [x]
  | y :: ys =>
      if get_frame_number x ≤ get_frame_number y then
        x :: y :: ys
      else
        y :: insertByFrameNumber x ys

/-- Stable sort by parsed frame number (model of
`all_frames.sort(key=get_frame_number)`). -/
def sortByFrameNumber : List String → List String
  | [] => []
  | x :: xs => insertByFrameNumber x (sortByFrameNumber xs)

/-- Model of `RenderAllOperator.find_frames`.  The file-system interaction is
made explicit: `dirExists` is the `os.path.exists` check on the frames
directory and `all_frames` is the concatenation of the `glob.glob`
results for the six extension patterns, in filesystem listing order.
Returns `[]` when the directory is missing or nothing matched, else the
candidates sorted (stably) by parsed frame number. -/
def find_frames (dirExists : Bool) (all_frames : List String) : List String :=
  if dirExists = false then []
  else if all_frames.isEmpty then []
  else sortByFrameNumber all_frames

/-- One segment of staging writes: sources `srcs` are copied to
`frame_<k:04d><ext>` for `k = start+1, start+2, ...` (the code names
each copy `frame_{total_frames+1:04d}` and then increments
`total_frames`). -/
def stageAll (srcs : List String) (start : Nat) : List (Nat × String) :=
  match srcs with
  | [] => []
  | s :: rest => (start + 1, s) :: stageAll rest (start + 1)

/-- Result of `prepare_frames_for_ffmpeg`: the returned count, the
staging-directory writes in order (`(k, src)` means file
`frame_<k:04d><ext>` is a copy of `src`), and the messages reported at
ERROR level. -/
structure PrepareResult where
  count : Nat
  staged : List (Nat × String)
  errorReports : List String
deriving Repr, DecidableEq

/-- Model of `RenderAllOperator.prepare_frames_for_ffmpeg`.  Empty input reports
an ERROR and returns count 0; `not loop or frame_count <= 1` takes the
simple forward branch; otherwise the loop branch writes forward pass,
hold-last (`hold_frames` copies of `frames[-1]`), reverse pass, and
hold-first (`hold_frames` copies of `frames[0]`), with the running
counter `total_frames` numbering all writes contiguously from 1. -/
def prepare_frames_for_ffmpeg (frames : List String) (loop : Bool)
    (hold_frames : Nat) : PrepareResult :=
  if frames.length = 0 then
    { count := 0, staged := [], errorReports := ["No frames to prepare for FFmpeg"] }
  else if loop = false ∨ frames.length ≤ 1 then
    let staged := stageAll frames 0
    { count := staged.length, staged := staged, errorReports := [] }
  else
    let n := frames.length
    let fwd := stageAll frames 0
    let holdLast := stageAll (List.replicate hold_frames (frames.getLastD "")) n
    let rev := stageAll frames.reverse (n + hold_frames)
    let holdFirst := stageAll (List.replicate hold_frames (frames.headD ""))
      (n + hold_frames + n)
    let staged := fwd ++ holdLast ++ rev ++ holdFirst
    { count := staged.length, staged := staged, errorReports := [] }

/-- The (codec, crf, pixel format, speed preset) tuple the code selects
for a quality string (`create_video_with_ffmpeg`, the
`if quality == "high" ... elif ... else` chain; anything other than
`"high"`/`"medium"` takes the low branch). -/
structure QualitySettings where
  video_codec : String
  crf_value : String
  pixel_format : String
  preset : String
deriving Repr, DecidableEq

/-- Quality preset selection from `create_video_with_ffmpeg`. -/
def qualitySettings (quality : String) : QualitySettings :=
  if quality = "high" then
    { video_codec := "libx264", crf_value := "18",
      pixel_format := "yuv420p", preset := "slow" }
  else if quality = "medium" then
    { video_codec := "libx264", crf_value := "23",
      pixel_format := "yuv420p", preset := "medium" }
  else
    { video_codec := "libx264", crf_value := "28",
      pixel_format := "yuv420p", preset := "fast" }

/-- The argument list `cmd` built by `create_video_with_ffmpeg` for the
encoder subprocess. -/
def buildFfmpegCmd (ffmpegPath : String) (fps : Nat) (inputPattern : String)
    (q : QualitySettings) (outputFile : String) : List String :=
  [ffmpegPath, "-y",
   "-framerate", toString fps,
   "-i", inputPattern,
   "-c:v", q.video_codec,
   "-preset", q.preset,
   "-crf", q.crf_value,
   "-pix_fmt", q.pixel_format,
   "-profile:v", "high",
   "-level", "4.2",
   "-movflags", "+faststart",
   outputFile]

/-- The external world as `create_video_with_ffmpeg` observes it for one
channel: whether `check_ffmpeg` succeeds, whether the frames directory
exists, the filesystem listing that the glob patterns match (in listing
order), the frames `convert_exr_to_png` manages to produce, and the
behaviour of the encoder subprocess (raises / return code) together with
whether the output file exists afterwards. -/
structure Env where
  ffmpegOk : Bool
  dirExists : Bool
  listing : List String
  pngConverted : List String
  ffmpegRaises : Bool
  ffmpegReturncode : Int
  outputExists : Bool
deriving Repr, DecidableEq

/-- Result of one `create_video_with_ffmpeg` call: the boolean the
function returns, whether the `tempfile.TemporaryDirectory` was entered,
whether the staging directory is still on disk when the function
returns, the staging writes performed, the encoder command (when the
subprocess was invoked), and the WARNING/ERROR reports. -/
structure CVResult where
  success : Bool
  tempDirCreated : Bool
  tempDirPresentAfter : Bool
  staged : List (Nat × String)
  cmd : Option (List String)
  warnings : List String
  errors : List String
deriving Repr, DecidableEq

/-- The body of the `with tempfile.TemporaryDirectory()` block of
`create_video_with_ffmpeg`, given the frames chosen for encoding.
Every exit of the body (early `return False` on zero prepared frames,
the `return True`/`return False` after the subprocess, and the
`except`-caught subprocess exception) leaves the `with` block, whose
`__exit__` removes the staging directory; hence every branch below
yields `tempDirPresentAfter := false`. -/
def cvTempBlock (env : Env) (frames : List String) (fps : Nat) (loop : Bool)
    (hold_frames : Nat) (quality : String) (fallbackWarnings : List String)
    (outputFile : String) : CVResult :=
  let prep := prepare_frames_for_ffmpeg frames loop hold_frames
  if prep.count = 0 then
    { success := false, tempDirCreated := true, tempDirPresentAfter := false,
      staged := prep.staged, cmd := none, warnings := fallbackWarnings,
      errors := prep.errorReports ++ ["No frames were prepared for FFmpeg"] }
  else
    let q := qualitySettings quality
    let frame_ext := splitext_ext (frames.headD "")
    let cmd := buildFfmpegCmd "ffmpeg" fps ("frame_%04d" ++ frame_ext) q outputFile
    if env.ffmpegRaises then
      { success := false, tempDirCreated := true, tempDirPresentAfter := false,
        staged := prep.staged, cmd := some cmd, warnings := fallbackWarnings,
        errors := ["Error running FFmpeg"] }
    else if env.ffmpegReturncode = 0 then
      { success := true, tempDirCreated := true, tempDirPresentAfter := false,
        staged := prep.staged, cmd := some cmd,
        warnings := fallbackWarnings ++
          (if env.outputExists then []
           else ["FFmpeg reported success but output file not found: " ++ outputFile]),
        errors := [] }
    else
      { success := false, tempDirCreated := true, tempDirPresentAfter := false,
        staged := prep.staged, cmd := some cmd, warnings := fallbackWarnings,
        errors := ["FFmpeg error"] }

/-- Model of `RenderAllOperator.create_video_with_ffmpeg`.  The `crf` parameter
mirrors the Python keyword argument `crf=23`: the source accepts it (it
is passed from the per-channel operators' `custom_crf` dialog value) but
never reads it — the command always uses the preset's `crf_value`. -/
def create_video_with_ffmpeg (env : Env) (outputFile : String) (fps : Nat)
    (loop : Bool) (hold_frames : Nat) (quality : String) (crf : Nat) : CVResult :=
  if env.ffmpegOk = false then
    { success := false, tempDirCreated := false, tempDirPresentAfter := false,
      staged := [], cmd := none, warnings := [],
      errors := ["FFmpeg is required but not found. Please install FFmpeg."] }
  else
    let original_frames := find_frames env.dirExists env.listing
    if original_frames.isEmpty then
      { success := false, tempDirCreated := false, tempDirPresentAfter := false,
        staged := [], cmd := none,
        warnings := ["No frames found"], errors := [] }
    else
      let is_exr := lowerStr (splitext_ext (original_frames.headD "")) = ".exr"
      let useConverted := is_exr ∧ env.pngConverted.isEmpty = false
      let frames := if useConverted then env.pngConverted else original_frames
      let fallbackWarnings :=
        if is_exr ∧ env.pngConverted.isEmpty then
          ["PNG conversion failed, falling back to original EXR frames"]
        else []
      let _ := crf
      cvTempBlock env frames fps loop hold_frames quality fallbackWarnings outputFile

/-- Outcome of `RenderAllOperator.execute` from the video-generation
phase on: the mobile channel's `create_video_with_ffmpeg` call, then the
desktop channel's call (made unconditionally, in sequence), then the
aggregation `if success_mobile or success_desktop` into
`{'FINISHED'}` versus `{'CANCELLED'}`. -/
structure ExecResult where
  finished : Bool
  mobile : CVResult
  desktop : CVResult
deriving Repr, DecidableEq

/-- The multi-channel aggregation of `RenderAllOperator.execute`
(lines rendering the mobile video, then the desktop video, then
returning `FINISHED` iff either succeeded).  `execute` passes no
`quality`/`crf` arguments, so the Python defaults `quality="high"`,
`crf=23` apply. -/
def executeRenderAll (envMobile envDesktop : Env) (outMobile outDesktop : String)
    (fpsMobile fpsDesktop : Nat) (loop : Bool) (hold_frames : Nat) : ExecResult :=
  let success_mobile :=
    create_video_with_ffmpeg envMobile outMobile fpsMobile loop hold_frames "high" 23
  let success_desktop :=
    create_video_with_ffmpeg envDesktop outDesktop fpsDesktop loop hold_frames "high" 23
  { finished := success_mobile.success || success_desktop.success,
    mobile := success_mobile,
    desktop := success_desktop }

/-- Strict order on filenames by parsed frame number, used to state
uniqueness of the sorted output when all parsed indices are distinct. -/
def frameNumLT (a b : String) : Prop := get_frame_number a < get_frame_number b

instance : DecidableRel frameNumLT := fun a b =>
  inferInstanceAs (Decidable (get_frame_number a < get_frame_number b))

instance : IsAntisymm String frameNumLT :=
  ⟨fun _ _ h1 h2 => ((Nat.lt_asymm h1) h2).elim⟩

/-- The spec's example directory content: `clip_001.png` … `clip_010.png`
in ascending numeric order. -/
def clipExample : List String :=
  ["clip_001.png", "clip_002.png", "clip_003.png", "clip_004.png",
   "clip_005.png", "clip_006.png", "clip_007.png", "clip_008.png",
   "clip_009.png", "clip_010.png"]

/-! ### Helper lemmas about the staging writes -/

theorem stageAll_length (srcs : List String) (start : Nat) :
    (stageAll srcs start).length = srcs.length := by
  induction srcs generalizing start with
  | nil => rfl
  | cons s rest ih => simp [stageAll, ih]

theorem stageAll_map_fst (srcs : List String) (start : Nat) :
    (stageAll srcs start).map Prod.fst = List.range' (start + 1) srcs.length := by
  induction srcs generalizing start with
  | nil => rfl
  | cons s rest ih =>
    simp [stageAll, ih, List.range'_succ]

theorem stageAll_map_snd (srcs : List String) (start : Nat) :
    (stageAll srcs start).map Prod.snd = srcs := by
  induction srcs generalizing start with
  | nil => rfl
  | cons s rest ih => simp [stageAll, ih]

theorem prepare_staged_of_loop (frames : List String) (h : Nat)
    (hN : 1 < frames.length) :
    (prepare_frames_for_ffmpeg frames true h).staged =
      stageAll frames 0
        ++ stageAll (List.replicate h (frames.getLastD "")) frames.length
        ++ stageAll frames.reverse (frames.length + h)
        ++ stageAll (List.replicate h (frames.headD ""))
            (frames.length + h + frames.length) := by
  rw [prepare_frames_for_ffmpeg]
  rw [if_neg (by omega), if_neg (by simp; omega)]

/-! ### Helper lemmas about the stable sort by frame number -/

theorem insertByFrameNumber_perm (x : String) (l : List String) :
    List.Perm (insertByFrameNumber x l) (x :: l) := by
  induction l with
  | nil => exact List.Perm.refl _
  | cons y ys ih =>
    rw [insertByFrameNumber]
    split
    · exact List.Perm.refl _
    · exact (ih.cons y).trans (List.Perm.swap x y ys)

theorem sortByFrameNumber_perm (l : List String) :
    List.Perm (sortByFrameNumber l) l := by
  induction l with
  | nil => exact List.Perm.refl _
  | cons x xs ih =>
    exact (insertByFrameNumber_perm x (sortByFrameNumber xs)).trans (ih.cons x)

theorem insertByFrameNumber_pairwise (x : String) (l : List String)
    (hl : l.Pairwise (fun a b => get_frame_number a ≤ get_frame_number b)) :
    (insertByFrameNumber x l).Pairwise
      (fun a b => get_frame_number a ≤ get_frame_number b) := by
  induction l with
  | nil => simp [insertByFrameNumber]
  | cons y ys ih =>
    rw [List.pairwise_cons] at hl
    rw [insertByFrameNumber]
    split
    · rename_i hxy
      rw [List.pairwise_cons]
      refine ⟨?_, List.pairwise_cons.mpr hl⟩
      intro b hb
      rcases List.mem_cons.mp hb with hb | hb
      · exact hb ▸ hxy
      · exact Nat.le_trans hxy (hl.1 b hb)
    · rename_i hxy
      rw [List.pairwise_cons]
      refine ⟨?_, ih hl.2⟩
      intro b hb
      rcases List.mem_cons.mp ((insertByFrameNumber_perm x ys).mem_iff.mp hb) with hb | hb
      · exact hb ▸ Nat.le_of_not_le hxy
      · exact hl.1 b hb

theorem sortByFrameNumber_pairwise (l : List String) :
    (sortByFrameNumber l).Pairwise
      (fun a b => get_frame_number a ≤ get_frame_number b) := by
  induction l with
  | nil => simp [sortByFrameNumber]
  | cons x xs ih => exact insertByFrameNumber_pairwise x _ ih

theorem insertByFrameNumber_filter (x : String) (l : List String) (k : Nat) :
    (insertByFrameNumber x l).filter (fun s => get_frame_number s == k)
      = (x :: l).filter (fun s => get_frame_number s == k) := by
  induction l with
  | nil => rfl
  | cons y ys ih =>
    rw [insertByFrameNumber]
    split
    · rfl
    · rename_i hxy
      simp only [List.filter_cons]
      rw [ih]
      simp only [List.filter_cons]
      by_cases hx : get_frame_number x = k
      · have hy : (get_frame_number y == k) = false := by
          have hlt : get_frame_number y < k := hx ▸ Nat.lt_of_not_le hxy
          simp [Nat.ne_of_lt hlt]
        simp [hx, hy]
      · have hx' : (get_frame_number x == k) = false := by simp [hx]
        simp [hx']

theorem sortByFrameNumber_filter (l : List String) (k : Nat) :
    (sortByFrameNumber l).filter (fun s => get_frame_number s == k)
      = l.filter (fun s => get_frame_number s == k) := by
  induction l with
  | nil => rfl
  | cons x xs ih =>
    rw [sortByFrameNumber, insertByFrameNumber_filter]
    simp only [List.filter_cons]
    rw [ih]

theorem sortByFrameNumber_eq_of_perm_nodupKeys (l target : List String)
    (hperm : List.Perm l target)
    (htgt : target.Pairwise frameNumLT) :
    sortByFrameNumber l = target := by
  have hp : List.Perm (sortByFrameNumber l) target :=
    (sortByFrameNumber_perm l).trans hperm
  have hnd : ((sortByFrameNumber l).map get_frame_number).Nodup := by
    have h1 : List.Perm ((sortByFrameNumber l).map get_frame_number)
        (target.map get_frame_number) := hp.map get_frame_number
    have h2 : (target.map get_frame_number).Nodup := by
      have hpw : (target.map get_frame_number).Pairwise (· < ·) :=
        List.pairwise_map.mpr (htgt.imp (fun hab => hab))
      exact hpw.imp Nat.ne_of_lt
    exact h1.nodup_iff.mpr h2
  have hne : (sortByFrameNumber l).Pairwise
      (fun a b => get_frame_number a ≠ get_frame_number b) :=
    List.pairwise_map.mp hnd
  have hlt : (sortByFrameNumber l).Pairwise frameNumLT :=
    ((sortByFrameNumber_pairwise l).and hne).imp
      (fun hab => Nat.lt_of_le_of_ne hab.1 hab.2)
  exact List.eq_of_perm_of_sorted hp hlt htgt

/-- C2: `find_frames` returns the candidates sorted ascending by parsed
frame number, with ties retaining the input listing order (stability,
expressed by filter preservation at each key); and any listing that is a
permutation of `clip_001.png` … `clip_010.png` is returned exactly in
ascending numeric order, regardless of the listing order. -/
theorem find_frames_sorted_stable (listing : List String) :
    (find_frames true listing).Pairwise
        (fun a b => get_frame_number a ≤ get_frame_number b)
    ∧ (∀ k : Nat, (find_frames true listing).filter (fun s => get_frame_number s == k)
        = listing.filter (fun s => get_frame_number s == k))
    ∧ (List.Perm listing clipExample → find_frames true listing = clipExample) := by
  refine ⟨?_, ?_, ?_⟩
  · rw [find_frames]
    split
    · simp
    · split
      · simp
      · exact sortByFrameNumber_pairwise listing
  · intro k
    rw [find_frames]
    split
    · simp_all
    · split
      · rename_i h1 h2
        rw [List.isEmpty_iff.mp h2]
      · exact sortByFrameNumber_filter listing k
  · intro hperm
    have hne : listing.isEmpty = false := by
      rcases listing with _ | _
      · exact absurd hperm.length_eq (by decide)
      · rfl
    rw [find_frames, if_neg (by decide), if_neg (by simp [hne])]
    exact sortByFrameNumber_eq_of_perm_nodupKeys listing clipExample hperm
      (by rw [show frameNumLT = fun a b => get_frame_number a < get_frame_number b from rfl]
          decide)

/-- C2 witness: a shuffled listing of `clip_001.png` … `clip_010.png`
is returned in ascending numeric order. -/
theorem find_frames_sorted_stable_witness :
    (List.Perm
        ["clip_010.png", "clip_003.png", "clip_001.png", "clip_007.png",
         "clip_005.png", "clip_002.png", "clip_009.png", "clip_004.png",
         "clip_008.png", "clip_006.png"] clipExample)
    ∧ find_frames true
        ["clip_010.png", "clip_003.png", "clip_001.png", "clip_007.png",
         "clip_005.png", "clip_002.png", "clip_009.png", "clip_004.png",
         "clip_008.png", "clip_006.png"] = clipExample :=
  ⟨by decide,
   (find_frames_sorted_stable
      ["clip_010.png", "clip_003.png", "clip_001.png", "clip_007.png",
       "clip_005.png", "clip_002.png", "clip_009.png", "clip_004.png",
       "clip_008.png", "clip_006.png"]).2.2 (by decide)⟩

/-! ### Frame-index parsing (claim C3) -/

theorem takeDigits_digits_dot (d rest : List Char)
    (hdig : ∀ c ∈ d, c.isDigit = true) :
    takeDigits (d ++ '.' :: rest) = (d, '.' :: rest) := by
  induction d with
  | nil => simp [takeDigits]
  | cons c cs ih =>
    have hc : c.isDigit = true := hdig c (by simp)
    simp only [List.cons_append, takeDigits, hc, if_pos]
    rw [List.append_eq, ih (fun c' hc' => hdig c' (by simp [hc']))]

/-- Lemma: `re.search(r'_(\d+)\.', ...)` finds the leftmost match: if no
underscore occurs in `pre`, the match in `pre ++ "_" ++ d ++ "." ++ rest`
is the digit group `d`. -/
theorem search_leftmost (pre d rest : List Char) (hpre : '_' ∉ pre)
    (hd : d ≠ []) (hdig : ∀ c ∈ d, c.isDigit = true) :
    searchUnderscoreDigitsDot (pre ++ '_' :: (d ++ '.' :: rest))
      = some (digitsToNat d) := by
  induction pre with
  | nil =>
    rw [List.nil_append, searchUnderscoreDigitsDot]
    rw [if_pos rfl, takeDigits_digits_dot d rest hdig]
    rw [if_pos ⟨hd, rfl⟩]
  | cons c cs ih =>
    have hc : c ≠ '_' := fun h => hpre (by simp [h])
    rw [List.cons_append, searchUnderscoreDigitsDot, if_neg hc]
    exact ih (fun h => hpre (by simp [h]))

/-- C3 counterexample: the claim says the frame index comes from the
LAST `_(\d+)\.` occurrence (the digits before the final extension), so
for `a_1.b_2.png` it predicts index 2; the code's
`re.search(r'_(\d+)\.', ...)` takes the LEFTMOST occurrence and parses
index 1. -/
theorem frame_index_not_parsed_from_right :
    get_frame_number "a_1.b_2.png" = 1
    ∧ specFrameNumberFromRight "a_1.b_2.png" = 2
    ∧ get_frame_number "a_1.b_2.png" ≠ specFrameNumberFromRight "a_1.b_2.png" :=
  ⟨by decide, by decide, by decide⟩

/-- C3 amended: the frame index is parsed from the FIRST (leftmost)
occurrence of `_(\d+)\.` in the basename — an underscore followed by a
maximal digit run followed by a dot; when no such occurrence exists the
index defaults to 0 and the file is still included in the result of
`find_frames`. -/
theorem frame_index_parsing (pre d rest : List Char) (hpre : '_' ∉ pre)
    (hd : d ≠ []) (hdig : ∀ c ∈ d, c.isDigit = true) :
    searchUnderscoreDigitsDot (pre ++ '_' :: (d ++ '.' :: rest))
        = some (digitsToNat d)
    ∧ (∀ f : String, searchUnderscoreDigitsDot (basename f).data = none →
        get_frame_number f = 0)
    ∧ (∀ l : List String, ∀ f ∈ l, f ∈ find_frames true l) := by
  refine ⟨search_leftmost pre d rest hpre hd hdig, ?_, ?_⟩
  · intro f hf
    rw [get_frame_number, hf]
  · intro l f hf
    rcases l with _ | ⟨x, xs⟩
    · exact absurd hf (List.not_mem_nil f)
    · rw [find_frames, if_neg (by decide), if_neg (by simp)]
      exact (sortByFrameNumber_perm (x :: xs)).mem_iff.mpr hf

/-- C3 witness: `img_07.png` parses to index 7 via the leftmost match. -/
theorem frame_index_parsing_witness :
    ('_' ∉ (['i', 'm', 'g'] : List Char))
    ∧ ((['0', '7'] : List Char) ≠ [])
    ∧ (∀ c ∈ (['0', '7'] : List Char), c.isDigit = true)
    ∧ (searchUnderscoreDigitsDot
          ((['i', 'm', 'g'] : List Char) ++ '_' :: (['0', '7'] ++ '.' :: ['p', 'n', 'g']))
          = some (digitsToNat ['0', '7'])
       ∧ (∀ f : String, searchUnderscoreDigitsDot (basename f).data = none →
            get_frame_number f = 0)
       ∧ (∀ l : List String, ∀ f ∈ l, f ∈ find_frames true l)) :=
  ⟨by decide, by decide, by decide,
   frame_index_parsing ['i', 'm', 'g'] ['0', '7'] ['p', 'n', 'g']
     (by decide) (by decide) (by decide)⟩

/-- C1: for every frame list of length `N > 1` with loop enabled and
every `holdFrames` value `h`, the staged timeline has exactly
`2N + 2h` files, numbered contiguously `1, 2, ...`, whose sources are,
in order: the forward pass (frames `1..N`), the last frame repeated `h`
times, the reverse pass (frames `N..1`), and the first frame repeated
`h` times. -/
theorem loop_timeline_structure (frames : List String) (h : Nat)
    (hN : 1 < frames.length) :
    (prepare_frames_for_ffmpeg frames true h).staged.length
        = 2 * frames.length + 2 * h
    ∧ (prepare_frames_for_ffmpeg frames true h).staged.map Prod.fst
        = List.range' 1 (2 * frames.length + 2 * h)
    ∧ (prepare_frames_for_ffmpeg frames true h).staged.map Prod.snd
        = frames ++ List.replicate h (frames.getLastD "")
            ++ frames.reverse ++ List.replicate h (frames.headD "") := by
  rw [prepare_staged_of_loop frames h hN]
  refine ⟨?_, ?_, ?_⟩
  · simp [stageAll_length]
    omega
  · simp only [List.map_append, stageAll_map_fst, List.length_replicate,
      List.length_reverse]
    rw [show frames.length + 1 = 0 + 1 + frames.length by omega,
      List.range'_append_1]
    rw [show frames.length + h + 1 = 0 + 1 + (h + frames.length) by omega,
      List.range'_append_1]
    rw [show frames.length + h + frames.length + 1
        = 0 + 1 + (frames.length + (h + frames.length)) by omega,
      List.range'_append_1]
    congr 1
    omega
  · simp [stageAll_map_snd]

/-- C1 witness: for `N = 5`, `h = 3` the staged timeline has 16 files;
files 6–8 are copies of frame 5 and files 14–16 are copies of frame 1. -/
theorem loop_timeline_structure_witness :
    (1 < (["f1", "f2", "f3", "f4", "f5"] : List String).length)
    ∧ ((prepare_frames_for_ffmpeg ["f1", "f2", "f3", "f4", "f5"] true 3).staged.length
          = 2 * 5 + 2 * 3
       ∧ (prepare_frames_for_ffmpeg ["f1", "f2", "f3", "f4", "f5"] true 3).staged.map Prod.fst
          = List.range' 1 (2 * 5 + 2 * 3)
       ∧ (prepare_frames_for_ffmpeg ["f1", "f2", "f3", "f4", "f5"] true 3).staged.map Prod.snd
          = ["f1", "f2", "f3", "f4", "f5"]
              ++ List.replicate 3 ((["f1", "f2", "f3", "f4", "f5"] : List String).getLastD "")
              ++ (["f1", "f2", "f3", "f4", "f5"] : List String).reverse
              ++ List.replicate 3 ((["f1", "f2", "f3", "f4", "f5"] : List String).headD ""))
    ∧ ((prepare_frames_for_ffmpeg ["f1", "f2", "f3", "f4", "f5"] true 3).staged.filter
          (fun e => decide (6 ≤ e.1 ∧ e.1 ≤ 8)) = [(6, "f5"), (7, "f5"), (8, "f5")]
       ∧ (prepare_frames_for_ffmpeg ["f1", "f2", "f3", "f4", "f5"] true 3).staged.filter
          (fun e => decide (14 ≤ e.1 ∧ e.1 ≤ 16)) = [(14, "f1"), (15, "f1"), (16, "f1")]) :=
  ⟨by decide,
   loop_timeline_structure ["f1", "f2", "f3", "f4", "f5"] 3 (by decide),
   by decide, by decide⟩

/-- C4: for every frame list of length `N ≤ 1` with loop enabled, the
builder behaves exactly as in the non-loop case, staging `N` files and
returning count `N` (no reverse segment is attempted). -/
theorem loop_short_input_fallback (frames : List String) (h : Nat)
    (hN : frames.length ≤ 1) :
    prepare_frames_for_ffmpeg frames true h = prepare_frames_for_ffmpeg frames false h
    ∧ (prepare_frames_for_ffmpeg frames true h).staged.length = frames.length
    ∧ (prepare_frames_for_ffmpeg frames true h).count = frames.length := by
  by_cases h0 : frames.length = 0
  · simp [prepare_frames_for_ffmpeg, h0]
  · constructor
    · rw [prepare_frames_for_ffmpeg, prepare_frames_for_ffmpeg]
      rw [if_neg h0, if_neg h0, if_pos (Or.inr hN), if_pos (Or.inl rfl)]
    · rw [prepare_frames_for_ffmpeg, if_neg h0, if_pos (Or.inr hN)]
      simp [stageAll_length]

/-- C4 witness: one frame with loop enabled yields exactly one staged
frame, identical to the non-loop behaviour. -/
theorem loop_short_input_fallback_witness :
    ((["only"] : List String).length ≤ 1)
    ∧ (prepare_frames_for_ffmpeg ["only"] true 15
          = prepare_frames_for_ffmpeg ["only"] false 15
       ∧ (prepare_frames_for_ffmpeg ["only"] true 15).staged.length = 1
       ∧ (prepare_frames_for_ffmpeg ["only"] true 15).count = 1) :=
  ⟨by decide, loop_short_input_fallback ["only"] 15 (by decide)⟩

/-- C8: a zero-element frame sequence makes the timeline builder report
an error and stage nothing, and the surrounding encode step (the body of
the temporary-directory block) turns the zero count into a failed,
error-reporting result rather than a success. -/
theorem empty_input_is_error (loop : Bool) (h : Nat) (env : Env) (fps : Nat)
    (quality : String) (fw : List String) (out : String) :
    (prepare_frames_for_ffmpeg [] loop h).staged = []
    ∧ (prepare_frames_for_ffmpeg [] loop h).count = 0
    ∧ (prepare_frames_for_ffmpeg [] loop h).errorReports
        = ["No frames to prepare for FFmpeg"]
    ∧ (cvTempBlock env [] fps loop h quality fw out).success = false
    ∧ (cvTempBlock env [] fps loop h quality fw out).errors ≠ [] := by
  refine ⟨?_, ?_, ?_, ?_, ?_⟩ <;>
    simp [prepare_frames_for_ffmpeg, cvTempBlock]

/-! ### Helper lemmas about the encode step -/

theorem find_frames_ne_nil (l : List String) (hl : l ≠ []) :
    find_frames true l ≠ [] := by
  rw [find_frames, if_neg (by decide), if_neg (by simp [hl])]
  intro h
  apply hl
  have hlen := (sortByFrameNumber_perm l).length_eq
  rw [h] at hlen
  exact List.length_eq_zero.mp hlen.symm

theorem prepare_count_pos (frames : List String) (loop : Bool) (hold : Nat)
    (hf : frames ≠ []) :
    (prepare_frames_for_ffmpeg frames loop hold).count ≠ 0 := by
  have h0 : frames.length ≠ 0 := fun h => hf (List.length_eq_zero.mp h)
  rw [prepare_frames_for_ffmpeg, if_neg h0]
  split
  · simp [stageAll_length, h0]
  · simp only [List.length_append, stageAll_length, List.length_replicate,
      List.length_reverse]
    omega

/-- Under a working encoder and a non-empty discovery result, the encode
step enters the temporary-directory block with a non-empty frame list. -/
theorem create_video_reaches_block (env : Env) (out : String) (fps : Nat)
    (loop : Bool) (hold : Nat) (quality : String) (crf : Nat)
    (hff : env.ffmpegOk = true)
    (hof : find_frames env.dirExists env.listing ≠ []) :
    ∃ frames fw, frames ≠ [] ∧
      create_video_with_ffmpeg env out fps loop hold quality crf
        = cvTempBlock env frames fps loop hold quality fw out := by
  rw [create_video_with_ffmpeg]
  rw [if_neg (by simp [hff])]
  simp only [List.isEmpty_iff, if_neg hof]
  refine ⟨_, _, ?_, rfl⟩
  split
  · rename_i hcond
    intro h
    rw [h] at hcond
    simp at hcond
  · exact hof

theorem cvTempBlock_encoder_outcome (env : Env) (frames : List String)
    (fps : Nat) (loop : Bool) (hold : Nat) (quality : String)
    (fw : List String) (out : String) (hf : frames ≠ []) :
    (cvTempBlock env frames fps loop hold quality fw out).success = true
      ↔ (env.ffmpegRaises = false ∧ env.ffmpegReturncode = 0) := by
  rw [cvTempBlock, if_neg (prepare_count_pos frames loop hold hf)]
  by_cases hr : env.ffmpegRaises = true
  · rw [if_pos hr]
    simp [hr]
  · have hr' : env.ffmpegRaises = false := by simpa using hr
    rw [if_neg hr]
    by_cases hrc : env.ffmpegReturncode = 0
    · rw [if_pos hrc]
      simp [hr', hrc]
    · rw [if_neg hrc]
      simp [hr', hrc]

theorem cvTempBlock_fields (env : Env) (frames : List String)
    (fps : Nat) (loop : Bool) (hold : Nat) (quality : String)
    (fw : List String) (out : String) (hf : frames ≠ []) :
    (cvTempBlock env frames fps loop hold quality fw out).staged
        = (prepare_frames_for_ffmpeg frames loop hold).staged
    ∧ (cvTempBlock env frames fps loop hold quality fw out).cmd
        = some (buildFfmpegCmd "ffmpeg" fps
            ("frame_%04d" ++ splitext_ext (frames.headD ""))
            (qualitySettings quality) out)
    ∧ (∀ w ∈ fw, w ∈ (cvTempBlock env frames fps loop hold quality fw out).warnings) := by
  rw [cvTempBlock, if_neg (prepare_count_pos frames loop hold hf)]
  by_cases hr : env.ffmpegRaises = true
  · rw [if_pos hr]
    exact ⟨rfl, rfl, fun w hw => hw⟩
  · rw [if_neg hr]
    by_cases hrc : env.ffmpegReturncode = 0
    · rw [if_pos hrc]
      exact ⟨rfl, rfl, fun w hw => List.mem_append_left _ hw⟩
    · rw [if_neg hrc]
      exact ⟨rfl, rfl, fun w hw => hw⟩

/-- C5: the explicit `crf` override is ignored — `create_video_with_ffmpeg`
returns the same result for any `crf` value, and with `quality="high"`
and `crf=28` the encoder command still carries the preset's `-crf 18`
(codec `libx264`, pixel format `yuv420p`, preset `slow`). -/
theorem crf_override_ignored :
    (∀ (env : Env) (out : String) (fps : Nat) (loop : Bool) (hold : Nat)
        (quality : String) (crf crf' : Nat),
      create_video_with_ffmpeg env out fps loop hold quality crf
        = create_video_with_ffmpeg env out fps loop hold quality crf')
    ∧ (create_video_with_ffmpeg
          ⟨true, true, ["r/clip_001.png", "r/clip_002.png"], [], false, 0, true⟩
          "out.mp4" 30 false 15 "high" 28).cmd
        = some ["ffmpeg", "-y", "-framerate", "30", "-i", "frame_%04d.png",
            "-c:v", "libx264", "-preset", "slow", "-crf", "18",
            "-pix_fmt", "yuv420p", "-profile:v", "high", "-level", "4.2",
            "-movflags", "+faststart", "out.mp4"]
    ∧ (qualitySettings "high").crf_value = "18"
    ∧ (qualitySettings "medium").crf_value = "23"
    ∧ (qualitySettings "low").crf_value = "28" :=
  ⟨fun _ _ _ _ _ _ _ _ => rfl, by decide, by decide, by decide, by decide⟩

/-- C6: when the encoder subprocess exits with code 0 but the output
file is missing, the encode step reports a WARNING and still returns
success (`True`). -/
theorem missing_output_warning_still_success (env : Env) (out : String)
    (fps : Nat) (loop : Bool) (hold : Nat) (quality : String) (crf : Nat)
    (hff : env.ffmpegOk = true)
    (hof : find_frames env.dirExists env.listing ≠ [])
    (hraise : env.ffmpegRaises = false)
    (hrc : env.ffmpegReturncode = 0)
    (hout : env.outputExists = false) :
    (create_video_with_ffmpeg env out fps loop hold quality crf).success = true
    ∧ ("FFmpeg reported success but output file not found: " ++ out)
        ∈ (create_video_with_ffmpeg env out fps loop hold quality crf).warnings := by
  obtain ⟨frames, fw, hf, heq⟩ :=
    create_video_reaches_block env out fps loop hold quality crf hff hof
  rw [heq, cvTempBlock, if_neg (prepare_count_pos frames loop hold hf)]
  rw [if_neg (by simp [hraise]), if_pos hrc]
  refine ⟨rfl, ?_⟩
  rw [hout]
  simp

/-- C6 witness: a concrete environment with exit code 0 and a missing
output file yields success with the warning reported. -/
theorem missing_output_warning_still_success_witness :
    ((⟨true, true, ["r/clip_001.png"], [], false, 0, false⟩ : Env).ffmpegOk = true)
    ∧ (find_frames (⟨true, true, ["r/clip_001.png"], [], false, 0, false⟩ : Env).dirExists
        (⟨true, true, ["r/clip_001.png"], [], false, 0, false⟩ : Env).listing ≠ [])
    ∧ ((⟨true, true, ["r/clip_001.png"], [], false, 0, false⟩ : Env).ffmpegRaises = false)
    ∧ ((⟨true, true, ["r/clip_001.png"], [], false, 0, false⟩ : Env).ffmpegReturncode = 0)
    ∧ ((⟨true, true, ["r/clip_001.png"], [], false, 0, false⟩ : Env).outputExists = false)
    ∧ ((create_video_with_ffmpeg ⟨true, true, ["r/clip_001.png"], [], false, 0, false⟩
          "out.mp4" 30 false 15 "high" 23).success = true
       ∧ ("FFmpeg reported success but output file not found: " ++ "out.mp4")
          ∈ (create_video_with_ffmpeg ⟨true, true, ["r/clip_001.png"], [], false, 0, false⟩
              "out.mp4" 30 false 15 "high" 23).warnings) :=
  ⟨rfl, by decide, rfl, rfl, rfl,
   missing_output_warning_still_success
     ⟨true, true, ["r/clip_001.png"], [], false, 0, false⟩
     "out.mp4" 30 false 15 "high" 23 rfl (by decide) rfl rfl rfl⟩

/-- C7: the temporary staging directory is gone from disk when
`create_video_with_ffmpeg` returns, on every exit path (encoder success,
nonzero exit code, caught subprocess exception, and the early-return
paths), because every exit of the `with tempfile.TemporaryDirectory()`
block runs its cleanup. -/
theorem staging_dir_always_removed (env : Env) (out : String) (fps : Nat)
    (loop : Bool) (hold : Nat) (quality : String) (crf : Nat) :
    (create_video_with_ffmpeg env out fps loop hold quality crf).tempDirPresentAfter
      = false := by
  simp only [create_video_with_ffmpeg, cvTempBlock]
  repeat' split
  all_goals rfl

/-- C9: the multi-channel run returns FINISHED iff at least one channel
succeeded (failure exactly when both channels failed), and the desktop
channel's result does not depend on the mobile channel's environment —
a mobile failure never prevents the desktop attempt. -/
theorem aggregate_any_channel_success (envM envM' envD : Env)
    (outM outD : String) (fpsM fpsD : Nat) (loop : Bool) (hold : Nat) :
    ((executeRenderAll envM envD outM outD fpsM fpsD loop hold).finished
        = ((executeRenderAll envM envD outM outD fpsM fpsD loop hold).mobile.success
            || (executeRenderAll envM envD outM outD fpsM fpsD loop hold).desktop.success))
    ∧ ((executeRenderAll envM envD outM outD fpsM fpsD loop hold).finished = false
        ↔ ((executeRenderAll envM envD outM outD fpsM fpsD loop hold).mobile.success = false
            ∧ (executeRenderAll envM envD outM outD fpsM fpsD loop hold).desktop.success = false))
    ∧ ((executeRenderAll envM envD outM outD fpsM fpsD loop hold).desktop
        = (executeRenderAll envM' envD outM outD fpsM fpsD loop hold).desktop) := by
  refine ⟨rfl, ?_, rfl⟩
  simp [executeRenderAll]

/-- C10: when the discovered frames are EXR and the EXR-to-PNG
conversion yields zero frames, the channel is not failed: a fallback
WARNING is reported, the original EXR frames are staged (the encoder
input pattern keeps the EXR extension), and the channel's success is
decided by the encoder invocation alone. -/
theorem exr_fallback_to_originals (env : Env) (out : String) (fps : Nat)
    (loop : Bool) (hold : Nat) (quality : String) (crf : Nat)
    (hff : env.ffmpegOk = true)
    (hof : find_frames env.dirExists env.listing ≠ [])
    (hexr : lowerStr (splitext_ext
        ((find_frames env.dirExists env.listing).headD "")) = ".exr")
    (hpng : env.pngConverted = []) :
    (create_video_with_ffmpeg env out fps loop hold quality crf).staged
        = (prepare_frames_for_ffmpeg (find_frames env.dirExists env.listing)
            loop hold).staged
    ∧ "PNG conversion failed, falling back to original EXR frames"
        ∈ (create_video_with_ffmpeg env out fps loop hold quality crf).warnings
    ∧ (create_video_with_ffmpeg env out fps loop hold quality crf).cmd
        = some (buildFfmpegCmd "ffmpeg" fps
            ("frame_%04d" ++ splitext_ext
              ((find_frames env.dirExists env.listing).headD ""))
            (qualitySettings quality) out)
    ∧ ((create_video_with_ffmpeg env out fps loop hold quality crf).success = true
        ↔ (env.ffmpegRaises = false ∧ env.ffmpegReturncode = 0)) := by
  have hcv : create_video_with_ffmpeg env out fps loop hold quality crf
      = cvTempBlock env (find_frames env.dirExists env.listing) fps loop hold quality
          ["PNG conversion failed, falling back to original EXR frames"] out := by
    rw [create_video_with_ffmpeg, if_neg (by simp [hff])]
    simp only [List.isEmpty_iff, if_neg hof]
    rw [if_neg (by simp [hpng]),
      if_pos ⟨by simpa using hexr, by simp [hpng]⟩]
  have hfields := cvTempBlock_fields env (find_frames env.dirExists env.listing)
    fps loop hold quality
    ["PNG conversion failed, falling back to original EXR frames"] out hof
  refine ⟨?_, ?_, ?_, ?_⟩
  · rw [hcv]
    exact hfields.1
  · rw [hcv]
    exact hfields.2.2 _ (by simp)
  · rw [hcv]
    exact hfields.2.1
  · rw [hcv]
    exact cvTempBlock_encoder_outcome env _ fps loop hold quality _ out hof

/-- C10 witness: two EXR frames, an empty conversion result, and a
successful encoder run yield a successful channel that staged the
original EXR frames. -/
theorem exr_fallback_to_originals_witness :
    ((⟨true, true, ["r/c_2.exr", "r/c_1.exr"], [], false, 0, true⟩ : Env).ffmpegOk = true)
    ∧ (find_frames true ["r/c_2.exr", "r/c_1.exr"] ≠ [])
    ∧ (lowerStr (splitext_ext ((find_frames true ["r/c_2.exr", "r/c_1.exr"]).headD ""))
        = ".exr")
    ∧ ((⟨true, true, ["r/c_2.exr", "r/c_1.exr"], [], false, 0, true⟩ : Env).pngConverted = [])
    ∧ ((create_video_with_ffmpeg
          ⟨true, true, ["r/c_2.exr", "r/c_1.exr"], [], false, 0, true⟩
          "out.mp4" 30 false 15 "high" 23).staged
        = (prepare_frames_for_ffmpeg (find_frames true ["r/c_2.exr", "r/c_1.exr"])
            false 15).staged
       ∧ "PNG conversion failed, falling back to original EXR frames"
          ∈ (create_video_with_ffmpeg
              ⟨true, true, ["r/c_2.exr", "r/c_1.exr"], [], false, 0, true⟩
              "out.mp4" 30 false 15 "high" 23).warnings
       ∧ (create_video_with_ffmpeg
            ⟨true, true, ["r/c_2.exr", "r/c_1.exr"], [], false, 0, true⟩
            "out.mp4" 30 false 15 "high" 23).cmd
          = some (buildFfmpegCmd "ffmpeg" 30
              ("frame_%04d" ++ splitext_ext
                ((find_frames true ["r/c_2.exr", "r/c_1.exr"]).headD ""))
              (qualitySettings "high") "out.mp4")
       ∧ ((create_video_with_ffmpeg
            ⟨true, true, ["r/c_2.exr", "r/c_1.exr"], [], false, 0, true⟩
            "out.mp4" 30 false 15 "high" 23).success = true
          ↔ ((⟨true, true, ["r/c_2.exr", "r/c_1.exr"], [], false, 0, true⟩ : Env).ffmpegRaises = false
             ∧ (⟨true, true, ["r/c_2.exr", "r/c_1.exr"], [], false, 0, true⟩ : Env).ffmpegReturncode = 0))) :=
  ⟨rfl, by decide, by decide, rfl,
   exr_fallback_to_originals
     ⟨true, true, ["r/c_2.exr", "r/c_1.exr"], [], false, 0, true⟩
     "out.mp4" 30 false 15 "high" 23 rfl (by decide) (by decide) rfl⟩

end RenderRoute
